import Mathlib

/-!
Verification of the SAML 2.0 SSO handler
(`litellm/proxy/auth/saml_handler.py`) against its specification.

The handler is embedded shallowly: the process environment becomes an
association list, each Python function becomes a Lean function returning
its result together with the list of log messages it emits, and the
exception path becomes `Except`.  The third-party `python3-saml` library
(OneLogin) is not part of the repository; where a claim depends on its
behaviour it is modelled from the specification and marked so in the
doc comment.
-/

/-- The process environment: an association list from variable names to
values, looked up in order (a model of `os.environ`). -/
abbrev Env := List (String × String)

/-- `os.getenv(key)`: the first binding of `key`, or `none` when unset. -/
def getenv (env : Env) (key : String) : Option String :=
  match env with
  | [] => none
  | (k, v) :: rest => if k = key then some v else getenv rest key

/-- `os.getenv(key, d)`: the value of `key`, or the default `d` when unset
(an empty value set in the environment is returned as is). -/
def getenvD (env : Env) (key d : String) : String :=
  (getenv env key).getD d

/-- Python truthiness of an optional string: `None` and `""` are falsy. -/
def truthyStr : Option String → Bool
  | none => false
  | some s => !s.isEmpty

/-- Python `a or b` on optional strings: `b` when `a` is falsy. -/
def pyOr (a b : Option String) : Option String :=
  if truthyStr a then a else b

/-- The string a truthy optional value holds (`""` for `None`). -/
def pyStr (o : Option String) : String := o.getD ""

/-- The error taxonomy used by the handler (`ProxyErrorTypes.auth_error`
is the only member the SAML code path uses). -/
inductive ProxyErrorTypes where
  | auth_error
deriving DecidableEq, Repr

/-- `ProxyException` as raised by the handler: message, error type, the
offending parameter and the HTTP status code. -/
structure ProxyException where
  message : String
  type : ProxyErrorTypes
  param : String
  code : Nat
deriving DecidableEq, Repr

/-- The `sp` block of the settings dictionary built by
`_get_saml_settings`. -/
structure SpSettings where
  entityId : String
  acsUrl : String
  acsBinding : String
  slsUrl : String
  slsBinding : String
  nameIdFormat : String
  x509cert : String
  privateKey : String
deriving DecidableEq, Repr

/-- The `idp` block of the settings dictionary. -/
structure IdpSettings where
  entityId : String
  ssoUrl : String
  ssoBinding : String
  sloUrl : String
  sloBinding : String
  x509cert : String
deriving DecidableEq, Repr

/-- The `security` block of the settings dictionary. -/
structure SecuritySettings where
  nameIdEncrypted : Bool
  authnRequestsSigned : Bool
  logoutRequestSigned : Bool
  logoutResponseSigned : Bool
  signMetadata : Bool
  wantMessagesSigned : Bool
  wantAssertionsSigned : Bool
  wantAssertionsEncrypted : Bool
  wantNameId : Bool
  wantNameIdEncrypted : Bool
  wantAttributeStatement : Bool
  requestedAuthnContext : Bool
  requestedAuthnContextComparison : String
  signatureAlgorithm : String
  digestAlgorithm : String
deriving DecidableEq, Repr

/-- The complete settings dictionary handed to the SAML library. -/
structure SamlSettings where
  strict : Bool
  debug : Bool
  sp : SpSettings
  idp : IdpSettings
  security : SecuritySettings
deriving DecidableEq, Repr

/-- `SAMLAuthenticationHandler._get_saml_settings`: reads the environment,
rejects a missing or empty required variable with a 500 `ProxyException`
naming it (in the source's order), and otherwise builds the settings
dictionary.  The second component is the list of log messages the call
emits (the single debug line of the success path). -/
def get_saml_settings (env : Env) : Except ProxyException SamlSettings × List String :=
  let saml_idp_entity_id := getenv env "SAML_IDP_ENTITY_ID"
  let saml_idp_sso_url := getenv env "SAML_IDP_SSO_URL"
  let saml_idp_x509_cert := getenv env "SAML_IDP_X509_CERT"
  let proxy_base_url := getenv env "PROXY_BASE_URL"
  if !truthyStr saml_idp_entity_id then
    (.error { message := "SAML_IDP_ENTITY_ID not set. Set it in .env file",
              type := .auth_error, param := "SAML_IDP_ENTITY_ID", code := 500 }, [])
  else if !truthyStr saml_idp_sso_url then
    (.error { message := "SAML_IDP_SSO_URL not set. Set it in .env file",
              type := .auth_error, param := "SAML_IDP_SSO_URL", code := 500 }, [])
  else if !truthyStr saml_idp_x509_cert then
    (.error { message := "SAML_IDP_X509_CERT not set. Set it in .env file",
              type := .auth_error, param := "SAML_IDP_X509_CERT", code := 500 }, [])
  else if !truthyStr proxy_base_url then
    (.error { message := "PROXY_BASE_URL not set. Required for SAML SSO redirects",
              type := .auth_error, param := "PROXY_BASE_URL", code := 500 }, [])
  else
    let base := pyStr proxy_base_url
    let saml_entity_id := getenvD env "SAML_ENTITY_ID" (base ++ "/sso/saml/metadata")
    let saml_name_id_format :=
      getenvD env "SAML_NAME_ID_FORMAT" "urn:oasis:names:tc:SAML:1.1:nameid-format:emailAddress"
    let saml_sp_x509_cert := getenvD env "SAML_SP_X509_CERT" ""
    let saml_sp_private_key := getenvD env "SAML_SP_PRIVATE_KEY" ""
    let acs_path := getenvD env "SAML_ACS_PATH" "/sso/saml/acs"
    let acs_url := base ++ acs_path
    let settings : SamlSettings :=
      { strict := true
        debug := (getenvD env "SAML_DEBUG" "false").toLower == "true"
        sp :=
          { entityId := saml_entity_id
            acsUrl := acs_url
            acsBinding := "urn:oasis:names:tc:SAML:2.0:bindings:HTTP-POST"
            slsUrl := base ++ "/sso/saml/sls"
            slsBinding := "urn:oasis:names:tc:SAML:2.0:bindings:HTTP-Redirect"
            nameIdFormat := saml_name_id_format
            x509cert := saml_sp_x509_cert
            privateKey := saml_sp_private_key }
        idp :=
          { entityId := pyStr saml_idp_entity_id
            ssoUrl := pyStr saml_idp_sso_url
            ssoBinding := "urn:oasis:names:tc:SAML:2.0:bindings:HTTP-Redirect"
            sloUrl := getenvD env "SAML_IDP_SLO_URL" ""
            sloBinding := "urn:oasis:names:tc:SAML:2.0:bindings:HTTP-Redirect"
            x509cert := pyStr saml_idp_x509_cert }
        security :=
          { nameIdEncrypted := false
            authnRequestsSigned := !saml_sp_private_key.isEmpty
            logoutRequestSigned := !saml_sp_private_key.isEmpty
            logoutResponseSigned := !saml_sp_private_key.isEmpty
            signMetadata := !saml_sp_private_key.isEmpty
            wantMessagesSigned := false
            wantAssertionsSigned := true
            wantAssertionsEncrypted := false
            wantNameId := true
            wantNameIdEncrypted := false
            wantAttributeStatement := false
            requestedAuthnContext := true
            requestedAuthnContextComparison := "exact"
            signatureAlgorithm := "http://www.w3.org/2001/04/xmldsig-more#rsa-sha256"
            digestAlgorithm := "http://www.w3.org/2001/04/xmlenc#sha256" } }
    (.ok settings,
     ["SAML settings built - SP Entity ID: " ++ saml_entity_id
        ++ ", IdP SSO URL: " ++ pyStr saml_idp_sso_url])

/-- `SAMLAuthenticationHandler.should_use_saml_handler`: true exactly when
the three IdP variables are set to truthy values. -/
def should_use_saml_handler (env : Env) : Bool :=
  truthyStr (getenv env "SAML_IDP_ENTITY_ID")
    && truthyStr (getenv env "SAML_IDP_SSO_URL")
    && truthyStr (getenv env "SAML_IDP_X509_CERT")

/-- Modelled from the spec: the `CustomOpenID` record
(`litellm/proxy/management_endpoints/types.py`, not under `src/`),
the spec's `CanonicalIdentity`: id, email, first/last/display name,
provider tag and group memberships. -/
structure CustomOpenID where
  id : Option String
  email : Option String
  first_name : Option String
  last_name : Option String
  display_name : Option String
  provider : String
  team_ids : List String
deriving DecidableEq, Repr

/-- An inbound SAML response as the validator sees it: one flag per check
of the spec's validation sequence (well-formedness, signature, time
window, audience, issuer, `InResponseTo`, `AuthnStatement`) together with
the attribute statement and the NameID the assertion carries. -/
structure SamlResponseModel where
  malformed : Bool
  signatureValid : Bool
  expired : Bool
  audienceOk : Bool
  issuerOk : Bool
  inResponseToOk : Bool
  hasAuthnStatement : Bool
  attributes : List (String × List String)
  nameId : Option String
deriving DecidableEq, Repr

/-- What the handler reads back from the library after
`auth.process_response()`: the error list, the last error reason, and
`is_authenticated()`. -/
structure LibOutcome where
  errors : List String
  lastErrorReason : String
  isAuthenticated : Bool
deriving DecidableEq, Repr

/-- Modelled from the spec: the third-party validation performed by
`OneLogin_Saml2_Auth.process_response` / `get_errors` (the `python3-saml`
library is not part of this repository).  Following the spec's
`validate_response` sequence, the checks run in order — well-formedness,
signature against the IdP certificate, time window, audience, issuer,
`InResponseTo`, presence of an `AuthnStatement` — and the first failing
check yields a validation error; only a response passing all checks is
authenticated. -/
def lib_process_response (r : SamlResponseModel) : LibOutcome :=
  if r.malformed then
    { errors := ["invalid_response"],
      lastErrorReason := "SAML Response could not be parsed",
      isAuthenticated := false }
  else if !r.signatureValid then
    { errors := ["invalid_response"],
      lastErrorReason := "Signature validation failed. SAML Response rejected",
      isAuthenticated := false }
  else if r.expired then
    { errors := ["invalid_response"],
      lastErrorReason := "Could not validate timestamp: expired",
      isAuthenticated := false }
  else if !r.audienceOk then
    { errors := ["invalid_response"],
      lastErrorReason := "Audience is not a valid audience for this Response",
      isAuthenticated := false }
  else if !r.issuerOk then
    { errors := ["invalid_response"],
      lastErrorReason := "Invalid issuer in the Assertion/Response",
      isAuthenticated := false }
  else if !r.inResponseToOk then
    { errors := ["invalid_response"],
      lastErrorReason := "The InResponseTo of the Response does not match the request ID",
      isAuthenticated := false }
  else if !r.hasAuthnStatement then
    { errors := ["invalid_response"],
      lastErrorReason := "The Assertion must contain at least one AuthnStatement",
      isAuthenticated := false }
  else
    { errors := [], lastErrorReason := "", isAuthenticated := true }

/-- The logical identity fields' configured SAML attribute names, read by
`process_saml_response` from the environment. -/
structure AttrConfig where
  userIdAttr : String
  emailAttr : String
  firstNameAttr : String
  lastNameAttr : String
  displayNameAttr : String
deriving DecidableEq, Repr

/-- The attribute-name configuration as `process_saml_response` reads it
(`os.getenv` with the source's defaults). -/
def attr_config_from_env (env : Env) : AttrConfig :=
  { userIdAttr := getenvD env "SAML_USER_ID_ATTRIBUTE" "email"
    emailAttr := getenvD env "SAML_USER_EMAIL_ATTRIBUTE" "email"
    firstNameAttr := getenvD env "SAML_USER_FIRST_NAME_ATTRIBUTE" "firstName"
    lastNameAttr := getenvD env "SAML_USER_LAST_NAME_ATTRIBUTE" "lastName"
    displayNameAttr := getenvD env "SAML_USER_DISPLAY_NAME_ATTRIBUTE" "displayName" }

/-- The default attribute-name configuration (an empty environment). -/
def default_attr_config : AttrConfig := attr_config_from_env []

/-- Python's `dict.get` over the attribute statement: the value bound to
`key`, or `none` when the key is absent. -/
def dictGet (d : List (String × List String)) (key : String) : Option (List String) :=
  match d with
  | [] => none
  | (k, v) :: rest => if k = key then some v else dictGet rest key

/-- The nested `get_attr_value` of `process_saml_response`: `None` when
the attribute dictionary is falsy, otherwise the first value of
`attributes.get(attr_name, [])`, or `None` when that list is empty. -/
def get_attr_value (attributes : List (String × List String)) (attr_name : String) :
    Option String :=
  if attributes.isEmpty then none
  else
    let attr_values := (dictGet attributes attr_name).getD []
    attr_values.head?

/-- The identity-mapping tail of `process_saml_response` (lines 262-300):
each logical field takes `get_attr_value` of its configured attribute,
id and email fall back (Python `or`) to the NameID, and a falsy display
name is synthesized as `"first last"` when both names are truthy and
otherwise falls back to the mapped email. -/
def map_identity (cfg : AttrConfig) (attributes : List (String × List String))
    (name_id : Option String) : CustomOpenID :=
  let user_id := pyOr (get_attr_value attributes cfg.userIdAttr) name_id
  let user_email := pyOr (get_attr_value attributes cfg.emailAttr) name_id
  let user_first_name := get_attr_value attributes cfg.firstNameAttr
  let user_last_name := get_attr_value attributes cfg.lastNameAttr
  let d := get_attr_value attributes cfg.displayNameAttr
  let user_display_name :=
    if !truthyStr d && truthyStr user_first_name && truthyStr user_last_name then
      some (pyStr user_first_name ++ " " ++ pyStr user_last_name)
    else if !truthyStr d then user_email
    else d
  { id := user_id
    email := user_email
    first_name := user_first_name
    last_name := user_last_name
    display_name := user_display_name
    provider := "saml"
    team_ids := [] }

/-- How Python renders an optional string in a log f-string (`None` for
an absent value). -/
def optStr : Option String → String
  | none => "None"
  | some s => s

/-- `SAMLAuthenticationHandler.process_saml_response`: builds the
settings (propagating a configuration failure), lets the library validate
the response, turns a reported error or an unauthenticated outcome into a
401 `ProxyException`, and otherwise maps the attributes and NameID to a
`CustomOpenID`.  The second component collects the emitted log lines. -/
def process_saml_response (env : Env) (r : SamlResponseModel) :
    Except ProxyException CustomOpenID × List String :=
  match get_saml_settings env with
  | (.error e, logs) => (.error e, logs)
  | (.ok _settings, logs0) =>
    let auth := lib_process_response r
    if !auth.errors.isEmpty then
      (.error { message := "SAML authentication failed: " ++ auth.lastErrorReason,
                type := .auth_error, param := "saml_response", code := 401 },
       logs0 ++ ["SAML authentication failed - Errors: "
                  ++ String.intercalate ", " auth.errors
                  ++ ", Reason: " ++ auth.lastErrorReason])
    else if !auth.isAuthenticated then
      (.error { message := "SAML authentication failed: User not authenticated",
                type := .auth_error, param := "saml_response", code := 401 },
       logs0 ++ ["SAML authentication failed - User not authenticated"])
    else
      let attributes := r.attributes
      let name_id := r.nameId
      let logs1 := logs0 ++
        [if !attributes.isEmpty then
          "SAML authentication successful - NameID: " ++ optStr name_id
            ++ ", Attributes: " ++ String.intercalate ", " (attributes.map Prod.fst)
         else
          "SAML authentication successful but no attributes received - NameID: "
            ++ optStr name_id
            ++ ". Will use NameID as fallback for user information."]
      let result := map_identity (attr_config_from_env env) attributes name_id
      (.ok result,
       logs1 ++ ["SAML user authenticated - ID: " ++ optStr result.id
                  ++ ", Email: " ++ optStr result.email])

/-- `SAMLAuthenticationHandler.get_metadata`: builds the settings
(propagating a configuration failure as a 500), and returns the SP
metadata only when the library's self-validation reports no error,
failing with a 500 `ProxyException` otherwise.  The generation and
self-validation of the metadata live in the library, not in this
repository, so their outputs — the metadata string `sp_metadata` and the
error list `validate_errors` — are taken as parameters. -/
def get_metadata (env : Env) (sp_metadata : String) (validate_errors : List String) :
    Except ProxyException String × List String :=
  match get_saml_settings env with
  | (.error e, logs) => (.error e, logs)
  | (.ok _settings, logs0) =>
    if !validate_errors.isEmpty then
      (.error { message := "SAML metadata validation failed: "
                  ++ String.intercalate ", " validate_errors,
                type := .auth_error, param := "saml_metadata", code := 500 },
       logs0 ++ ["SAML metadata validation errors: "
                  ++ String.intercalate ", " validate_errors])
    else
      (.ok sp_metadata, logs0)

/-- Modelled from the spec: the specification's `IdPSettings` invariant
requires the IdP X.509 certificate to be PEM-decodable; this predicate
stands for "the certificate parses" (base64 body characters only, and
non-empty).  The source never performs this parse itself. -/
def pem_base64_decodable (s : String) : Bool :=
  !s.isEmpty && s.data.all (fun c => c.isAlphanum || c = '+' || c = '/' || c = '=' || c = '\n')

/-- Python list indexing `l[i]` made explicit: an `IndexError` outside
the range, the element otherwise. -/
def pyIndex {α : Type} (l : List α) (i : Nat) : Except String α :=
  match l.get? i with
  | some v => .ok v
  | none => .error "IndexError: list index out of range"

/-- `get_attr_value` with its one partial operation — the indexing
`attr_values[0]` — made an explicit `Except`, to show the guard
`if attr_values` keeps it in range. -/
def get_attr_valueE (attributes : List (String × List String)) (attr_name : String) :
    Except String (Option String) :=
  if attributes.isEmpty then .ok none
  else
    let attr_values := (dictGet attributes attr_name).getD []
    if !attr_values.isEmpty then do
      let v ← pyIndex attr_values 0
      .ok (some v)
    else .ok none

/-- The identity mapping with every partial operation explicit: any
`IndexError` the extraction could raise surfaces as an `Except.error`. -/
def map_identityE (cfg : AttrConfig) (attributes : List (String × List String))
    (name_id : Option String) : Except String CustomOpenID := do
  let a_id ← get_attr_valueE attributes cfg.userIdAttr
  let a_email ← get_attr_valueE attributes cfg.emailAttr
  let user_first_name ← get_attr_valueE attributes cfg.firstNameAttr
  let user_last_name ← get_attr_valueE attributes cfg.lastNameAttr
  let d ← get_attr_valueE attributes cfg.displayNameAttr
  let user_id := pyOr a_id name_id
  let user_email := pyOr a_email name_id
  let user_display_name :=
    if !truthyStr d && truthyStr user_first_name && truthyStr user_last_name then
      some (pyStr user_first_name ++ " " ++ pyStr user_last_name)
    else if !truthyStr d then user_email
    else d
  .ok { id := user_id
        email := user_email
        first_name := user_first_name
        last_name := user_last_name
        display_name := user_display_name
        provider := "saml"
        team_ids := [] }

/-- The first value bound to `name` in the attribute statement, taken
verbatim (the claim's "take the first value"). -/
def spec_first_value (attributes : List (String × List String)) (name : String) :
    Option String :=
  match dictGet attributes name with
  | some (v :: _) => some v
  | _ => none

/-- The first value bound to `name`, with an empty first value treated
like an absent attribute (the amended claim's reading, matching Python
truthiness). -/
def spec_present_value (attributes : List (String × List String)) (name : String) :
    Option String :=
  match dictGet attributes name with
  | some (v :: _) => if v = "" then none else some v
  | _ => none

/-- The Attribute Mapper as the amended claim words it: id and email take
the configured attribute's first value when present and non-empty and
otherwise fall back to NameID; first and last name keep the raw first
value; the display name takes its configured attribute when present and
non-empty, is synthesized as `"first last"` when both names are present
and non-empty, and otherwise falls back to the mapped email. -/
def spec_map_identity (cfg : AttrConfig) (attributes : List (String × List String))
    (name_id : Option String) : CustomOpenID :=
  let theId := match spec_present_value attributes cfg.userIdAttr with
    | some v => some v
    | none => name_id
  let theEmail := match spec_present_value attributes cfg.emailAttr with
    | some v => some v
    | none => name_id
  let fn := spec_first_value attributes cfg.firstNameAttr
  let ln := spec_first_value attributes cfg.lastNameAttr
  let display := match spec_present_value attributes cfg.displayNameAttr with
    | some v => some v
    | none =>
      match spec_present_value attributes cfg.firstNameAttr,
            spec_present_value attributes cfg.lastNameAttr with
      | some f, some l => some (f ++ " " ++ l)
      | _, _ => theEmail
  { id := theId
    email := theEmail
    first_name := fn
    last_name := ln
    display_name := display
    provider := "saml"
    team_ids := [] }

/-- A complete, well-formed environment: the four required variables. -/
def env_ok : Env :=
  [("SAML_IDP_ENTITY_ID", "https://idp.example.com"),
   ("SAML_IDP_SSO_URL", "https://idp.example.com/sso"),
   ("SAML_IDP_X509_CERT", "MIICCERTDATA"),
   ("PROXY_BASE_URL", "https://proxy.example.com")]

/-- A well-formed environment whose IdP certificate is not PEM-decodable. -/
def env_badcert : Env :=
  [("SAML_IDP_ENTITY_ID", "https://idp.example.com"),
   ("SAML_IDP_SSO_URL", "https://idp.example.com/sso"),
   ("SAML_IDP_X509_CERT", "!!not-a-certificate!!"),
   ("PROXY_BASE_URL", "https://proxy.example.com")]

/-- A well-formed environment supplying an SP private key and no SP
certificate. -/
def env_keyonly : Env :=
  env_ok ++ [("SAML_SP_PRIVATE_KEY", "KEY")]

/-- The three IdP variables without `PROXY_BASE_URL`. -/
def env_nobase : Env :=
  [("SAML_IDP_ENTITY_ID", "https://idp.example.com"),
   ("SAML_IDP_SSO_URL", "https://idp.example.com/sso"),
   ("SAML_IDP_X509_CERT", "MIICCERTDATA")]

/-- `env_ok` with the IdP certificate emptied: the two environments
differ only in the `SAML_IDP_X509_CERT` value. -/
def env_emptycert : Env :=
  [("SAML_IDP_ENTITY_ID", "https://idp.example.com"),
   ("SAML_IDP_SSO_URL", "https://idp.example.com/sso"),
   ("SAML_IDP_X509_CERT", ""),
   ("PROXY_BASE_URL", "https://proxy.example.com")]

/-- `env_keyonly` with different (non-empty) secret material: IdP
certificate and SP private key changed, everything else equal. -/
def env_othersecrets : Env :=
  [("SAML_IDP_ENTITY_ID", "https://idp.example.com"),
   ("SAML_IDP_SSO_URL", "https://idp.example.com/sso"),
   ("SAML_IDP_X509_CERT", "MIICOTHERCERT"),
   ("PROXY_BASE_URL", "https://proxy.example.com"),
   ("SAML_SP_PRIVATE_KEY", "OTHERKEY")]

/-- A response that fails only its signature check. -/
def response_badsig : SamlResponseModel :=
  { malformed := false
    signatureValid := false
    expired := false
    audienceOk := true
    issuerOk := true
    inResponseToOk := true
    hasAuthnStatement := true
    attributes := [("email", ["user@example.com"])]
    nameId := some "user@example.com" }

/-- A response that passes every check, carrying the test-suite's
attribute statement. -/
def response_good : SamlResponseModel :=
  { malformed := false
    signatureValid := true
    expired := false
    audienceOk := true
    issuerOk := true
    inResponseToOk := true
    hasAuthnStatement := true
    attributes := [("email", ["user@example.com"]), ("firstName", ["John"]),
                   ("lastName", ["Doe"]), ("displayName", ["John Doe"])]
    nameId := some "user@example.com" }

/-- The configuration keys the handler reads that hold no secret
material (the secrets are `SAML_SP_PRIVATE_KEY`, `SAML_SP_X509_CERT`
and `SAML_IDP_X509_CERT`). -/
def non_secret_keys : List String :=
  ["SAML_IDP_ENTITY_ID", "SAML_IDP_SSO_URL", "PROXY_BASE_URL", "SAML_ENTITY_ID",
   "SAML_NAME_ID_FORMAT", "SAML_ACS_PATH", "SAML_DEBUG", "SAML_IDP_SLO_URL",
   "SAML_USER_ID_ATTRIBUTE", "SAML_USER_EMAIL_ATTRIBUTE", "SAML_USER_FIRST_NAME_ATTRIBUTE",
   "SAML_USER_LAST_NAME_ATTRIBUTE", "SAML_USER_DISPLAY_NAME_ATTRIBUTE"]

/-- The payload of a successful `Except`, `none` for a failure. -/
def exceptOk {eps alpha : Type} : Except eps alpha → Option alpha
  | .ok a => some a
  | .error _ => none

/-!  Helper lemmas shared by the claim theorems. -/

theorem truthyStr_getenvD (env : Env) (k : String) :
    truthyStr (getenv env k) = !(getenvD env k "").isEmpty := by
  cases h : getenv env k with
  | none =>
    simp [truthyStr, getenvD, h]
    decide
  | some v => simp [truthyStr, getenvD, h]

theorem ok_bind {eps alpha beta : Type} (a : alpha) (f : alpha → Except eps beta) :
    (Except.ok a >>= f : Except eps beta) = f a := rfl

theorem get_attr_valueE_ok (attrs : List (String × List String)) (n : String) :
    get_attr_valueE attrs n = .ok (get_attr_value attrs n) := by
  unfold get_attr_valueE get_attr_value
  by_cases h : attrs.isEmpty
  · simp [h]
  · simp only [h]
    cases hv : (dictGet attrs n).getD [] with
    | nil => simp
    | cons a l =>
      simp [pyIndex]
      rfl

theorem spec_first_value_eq (attrs : List (String × List String)) (n : String) :
    spec_first_value attrs n = get_attr_value attrs n := by
  unfold spec_first_value get_attr_value
  cases attrs with
  | nil => rfl
  | cons hd tl =>
    simp only [List.isEmpty_cons]
    cases h : dictGet (hd :: tl) n with
    | none => simp [h]
    | some l =>
      cases l with
      | nil => simp [h]
      | cons v vs => simp [h]

theorem spec_present_value_eq (attrs : List (String × List String)) (n : String) :
    spec_present_value attrs n =
      if truthyStr (get_attr_value attrs n) then get_attr_value attrs n else none := by
  rw [← spec_first_value_eq]
  unfold spec_present_value spec_first_value
  cases h : dictGet attrs n with
  | none => simp [truthyStr]
  | some l =>
    cases l with
    | nil => simp [truthyStr]
    | cons v vs =>
      by_cases hv : v = ""
      · simp [hv, truthyStr]
        decide
      · have hne : v.isEmpty = false := by
          cases hiv : v.isEmpty
          · rfl
          · exact absurd ((String.isEmpty_iff v).mp hiv) hv
        simp [truthyStr, hne, hv]

theorem map_identity_eq_spec (cfg : AttrConfig) (attrs : List (String × List String))
    (nid : Option String) : map_identity cfg attrs nid = spec_map_identity cfg attrs nid := by
  unfold map_identity spec_map_identity
  simp only [spec_present_value_eq, spec_first_value_eq]
  generalize get_attr_value attrs cfg.userIdAttr = a
  generalize get_attr_value attrs cfg.emailAttr = b
  generalize get_attr_value attrs cfg.firstNameAttr = f
  generalize get_attr_value attrs cfg.lastNameAttr = l
  generalize get_attr_value attrs cfg.displayNameAttr = d
  rcases a with _ | sa <;> rcases b with _ | sb <;> rcases f with _ | sf <;>
    rcases l with _ | sl <;> rcases d with _ | sd <;>
    simp [pyOr, truthyStr, pyStr] <;> split_ifs <;> simp_all

theorem settings_error_code (env : Env) (e : ProxyException) (logs : List String)
    (h : get_saml_settings env = (.error e, logs)) :
    e.code = 500 ∧ e.type = .auth_error ∧ logs = [] := by
  simp only [get_saml_settings] at h
  split at h
  · simp only [Prod.mk.injEq, Except.error.injEq] at h
    obtain ⟨he, hl⟩ := h
    subst he; subst hl; exact ⟨rfl, rfl, rfl⟩
  · split at h
    · simp only [Prod.mk.injEq, Except.error.injEq] at h
      obtain ⟨he, hl⟩ := h
      subst he; subst hl; exact ⟨rfl, rfl, rfl⟩
    · split at h
      · simp only [Prod.mk.injEq, Except.error.injEq] at h
        obtain ⟨he, hl⟩ := h
        subst he; subst hl; exact ⟨rfl, rfl, rfl⟩
      · split at h
        · simp only [Prod.mk.injEq, Except.error.injEq] at h
          obtain ⟨he, hl⟩ := h
          subst he; subst hl; exact ⟨rfl, rfl, rfl⟩
        · simp at h

/-!  Claim theorems. -/

/-- C1: for every inbound SAML response whose signature does not verify
against the configured IdP certificate, `process_saml_response` never
returns an identity record, and — whenever the configuration itself
validates — it fails with a validation error surfaced as HTTP 401 on the
`saml_response` parameter. -/
theorem process_signature_invalid_is_401 (env : Env) (r : SamlResponseModel)
    (hsig : r.signatureValid = false) :
    (∀ c logs, process_saml_response env r ≠ (.ok c, logs)) ∧
    ((∃ s logs0, get_saml_settings env = (.ok s, logs0)) →
      ∃ e logs, process_saml_response env r = (.error e, logs) ∧
        e.code = 401 ∧ e.type = .auth_error ∧ e.param = "saml_response") := by
  have herr : (lib_process_response r).errors = ["invalid_response"] := by
    unfold lib_process_response
    rw [hsig]
    by_cases hm : r.malformed <;> simp [hm]
  constructor
  · intro c logs hcontra
    unfold process_saml_response at hcontra
    cases hset : get_saml_settings env with
    | mk fst snd =>
      rw [hset] at hcontra
      cases fst with
      | error e => simp at hcontra
      | ok s => simp [herr] at hcontra
  · rintro ⟨s, logs0, hset⟩
    unfold process_saml_response
    rw [hset]
    simp only [herr]
    exact ⟨_, _, rfl, rfl, trivial, rfl⟩

/-- C1 witness: a concrete well-configured environment and a concrete
response failing only its signature check are rejected with a 401. -/
theorem process_signature_invalid_is_401_witness :
    ∃ e logs, process_saml_response env_ok response_badsig = (.error e, logs) ∧
      e.code = 401 := by
  obtain ⟨e, logs, he, hc, -, -⟩ :=
    (process_signature_invalid_is_401 env_ok response_badsig rfl).2 ⟨_, _, rfl⟩
  exact ⟨e, logs, he, hc⟩

/-- C2 counterexample: a configuration whose IdP certificate value is
present but fails to parse (not PEM-decodable) is nonetheless accepted by
`get_saml_settings` — settings construction does not fail with a
`ConfigError` as the claim requires. -/
theorem cert_parse_not_checked_counterexample :
    pem_base64_decodable "!!not-a-certificate!!" = false ∧
    getenv env_badcert "SAML_IDP_X509_CERT" = some "!!not-a-certificate!!" ∧
    (exceptOk (get_saml_settings env_badcert).1).isSome = true := by decide

/-- C2 amended: settings construction fails with a 500 `ProxyException`
naming the first absent or empty required field, in the source's order
(IdP entity ID, IdP SSO URL, IdP certificate, proxy base URL), and
succeeds whenever all four are set to non-empty values; the parseability
of the IdP certificate is not checked at settings-construction time. -/
theorem required_fields_checked_amended (env : Env) :
    (truthyStr (getenv env "SAML_IDP_ENTITY_ID") = false →
      get_saml_settings env =
        (.error { message := "SAML_IDP_ENTITY_ID not set. Set it in .env file",
                  type := .auth_error, param := "SAML_IDP_ENTITY_ID", code := 500 }, [])) ∧
    (truthyStr (getenv env "SAML_IDP_ENTITY_ID") = true →
      truthyStr (getenv env "SAML_IDP_SSO_URL") = false →
      get_saml_settings env =
        (.error { message := "SAML_IDP_SSO_URL not set. Set it in .env file",
                  type := .auth_error, param := "SAML_IDP_SSO_URL", code := 500 }, [])) ∧
    (truthyStr (getenv env "SAML_IDP_ENTITY_ID") = true →
      truthyStr (getenv env "SAML_IDP_SSO_URL") = true →
      truthyStr (getenv env "SAML_IDP_X509_CERT") = false →
      get_saml_settings env =
        (.error { message := "SAML_IDP_X509_CERT not set. Set it in .env file",
                  type := .auth_error, param := "SAML_IDP_X509_CERT", code := 500 }, [])) ∧
    (truthyStr (getenv env "SAML_IDP_ENTITY_ID") = true →
      truthyStr (getenv env "SAML_IDP_SSO_URL") = true →
      truthyStr (getenv env "SAML_IDP_X509_CERT") = true →
      truthyStr (getenv env "PROXY_BASE_URL") = false →
      get_saml_settings env =
        (.error { message := "PROXY_BASE_URL not set. Required for SAML SSO redirects",
                  type := .auth_error, param := "PROXY_BASE_URL", code := 500 }, [])) ∧
    (truthyStr (getenv env "SAML_IDP_ENTITY_ID") = true →
      truthyStr (getenv env "SAML_IDP_SSO_URL") = true →
      truthyStr (getenv env "SAML_IDP_X509_CERT") = true →
      truthyStr (getenv env "PROXY_BASE_URL") = true →
      ∃ s logs, get_saml_settings env = (.ok s, logs)) := by
  refine ⟨fun h1 => ?_, fun h1 h2 => ?_, fun h1 h2 h3 => ?_, fun h1 h2 h3 h4 => ?_,
          fun h1 h2 h3 h4 => ?_⟩ <;>
    simp [get_saml_settings, h1]
  · simp [h2]
  · simp [h2, h3]
  · simp [h2, h3, h4]
  · simp [h2, h3, h4]

/-- C3 counterexample: with the default configuration, the `email`
attribute is present with first value `""`, yet the mapped email is the
NameID `"nid"`, not that first value — the mapping does not take the
first value of the configured attribute as the claim states. -/
theorem first_value_empty_counterexample :
    default_attr_config.emailAttr = "email" ∧
    get_attr_value [("email", [""])] "email" = some "" ∧
    (map_identity default_attr_config [("email", [""])] (some "nid")).email = some "nid" ∧
    (some "nid" : Option String) ≠ some "" := by decide

/-- C3 amended: identity mapping takes the first value of each configured
attribute, treating an empty first value like an absent attribute for the
fallbacks (Python truthiness): id and email fall back to NameID when
their attribute is absent or its first value empty; first and last name
keep the raw first value; display name is synthesized as `"first last"`
when it is absent or empty and both names are present and non-empty, and
otherwise falls back to the mapped email — and the claim's round-trip
example maps as stated. -/
theorem attribute_mapping_amended :
    (∀ cfg attrs nid, map_identity cfg attrs nid = spec_map_identity cfg attrs nid) ∧
    map_identity default_attr_config
        [("email", ["a@b.com"]), ("firstName", ["A"]), ("lastName", ["B"])] none =
      { id := some "a@b.com", email := some "a@b.com", first_name := some "A",
        last_name := some "B", display_name := some "A B",
        provider := "saml", team_ids := [] } :=
  ⟨fun cfg attrs nid => map_identity_eq_spec cfg attrs nid, by decide⟩

/-- C4 counterexample: the configuration `env_keyonly` supplies an SP
private key and no SP certificate, and settings construction accepts it —
the accepted settings hold `privateKey = "KEY"` with `x509cert = ""`,
violating the claimed invariant. -/
theorem key_without_cert_accepted_counterexample :
    (exceptOk (get_saml_settings env_keyonly).1).map
        (fun s => (s.sp.privateKey, s.sp.x509cert)) = some ("KEY", "") := by decide

/-- C4 amended: settings construction copies the SP private key and SP
certificate independently from the configuration (defaulting each to the
empty string) and enforces no relation between them, so a configuration
with a private key and no certificate is accepted. -/
theorem sp_key_cert_copied_independently (env : Env) (s : SamlSettings)
    (logs : List String) (h : get_saml_settings env = (.ok s, logs)) :
    s.sp.privateKey = getenvD env "SAML_SP_PRIVATE_KEY" "" ∧
    s.sp.x509cert = getenvD env "SAML_SP_X509_CERT" "" := by
  simp only [get_saml_settings] at h
  split at h
  · simp at h
  · split at h
    · simp at h
    · split at h
      · simp at h
      · split at h
        · simp at h
        · simp only [Prod.mk.injEq, Except.ok.injEq] at h
          obtain ⟨hs, hl⟩ := h
          subst hs
          exact ⟨rfl, rfl⟩

/-- C4 witness: the key-only configuration is accepted and its settings
carry the key with an empty certificate. -/
theorem sp_key_cert_copied_independently_witness :
    ∃ s logs, get_saml_settings env_keyonly = (.ok s, logs) ∧
      s.sp.privateKey = "KEY" ∧ s.sp.x509cert = "" := by
  refine ⟨_, _, rfl, ?_, ?_⟩
  · exact (sp_key_cert_copied_independently env_keyonly _ _ rfl).1.trans (by decide)
  · exact (sp_key_cert_copied_independently env_keyonly _ _ rfl).2.trans (by decide)

/-- C5: in every accepted configuration, signing of outbound
authentication requests (`authnRequestsSigned`) is enabled exactly when a
non-empty SP private key is supplied. -/
theorem authn_requests_signed_iff_key (env : Env) (s : SamlSettings)
    (logs : List String) (h : get_saml_settings env = (.ok s, logs)) :
    (s.security.authnRequestsSigned = true ↔
      truthyStr (getenv env "SAML_SP_PRIVATE_KEY") = true) := by
  simp only [get_saml_settings] at h
  split at h
  · simp at h
  · split at h
    · simp at h
    · split at h
      · simp at h
      · split at h
        · simp at h
        · simp only [Prod.mk.injEq, Except.ok.injEq] at h
          obtain ⟨hs, hl⟩ := h
          subst hs
          simp [truthyStr_getenvD]

/-- C5 witness: supplying the key `"KEY"` enables request signing in the
accepted settings. -/
theorem authn_requests_signed_iff_key_witness :
    ∃ s logs, get_saml_settings env_keyonly = (.ok s, logs) ∧
      s.security.authnRequestsSigned = true := by
  refine ⟨_, _, rfl, ?_⟩
  exact (authn_requests_signed_iff_key env_keyonly _ _ rfl).mpr (by decide)

/-- C6: `get_metadata` fails with a 500 `ProxyException` whenever
self-validation reports any error, and returns metadata only when the
validation error list is empty — in which case the returned string is the
generated SP metadata. -/
theorem metadata_only_when_self_validates (env : Env) (md : String) (errs : List String) :
    (errs ≠ [] → ∃ e logs, get_metadata env md errs = (.error e, logs)
        ∧ e.code = 500 ∧ e.type = .auth_error) ∧
    (∀ m logs, get_metadata env md errs = (.ok m, logs) → errs = [] ∧ m = md) := by
  constructor
  · intro hne
    unfold get_metadata
    cases hset : get_saml_settings env with
    | mk fst snd =>
      cases fst with
      | error e =>
        have hcode := settings_error_code env e snd hset
        exact ⟨e, snd, rfl, hcode.1, hcode.2.1⟩
      | ok s =>
        have hne2 : errs.isEmpty = false := by
          cases errs with
          | nil => exact absurd rfl hne
          | cons a l => rfl
        simp [hne2]
  · intro m logs h
    unfold get_metadata at h
    cases hset : get_saml_settings env with
    | mk fst snd =>
      rw [hset] at h
      cases fst with
      | error e => simp at h
      | ok s =>
        by_cases he : errs.isEmpty
        · simp [he] at h
          have hnil : errs = [] := by
            cases errs with
            | nil => rfl
            | cons a l => simp at he
          exact ⟨hnil, h.1.symm⟩
        · simp [he] at h

/-- C7: the attribute-to-identity mapping step never raises — with every
partial operation made explicit, it returns a `CustomOpenID` for every
attribute mapping (including an empty one, attribute names bound to empty
value lists, and an absent NameID), and agrees with the total mapping. -/
theorem map_identityE_total (cfg : AttrConfig) (attrs : List (String × List String))
    (nid : Option String) : map_identityE cfg attrs nid = .ok (map_identity cfg attrs nid) := by
  unfold map_identityE
  simp only [get_attr_valueE_ok, ok_bind]
  rfl

/-- C8: when the optional variables are absent, the accepted settings use
the defaults: the email-address NameID format URN, the ACS URL formed by
appending `/sso/saml/acs` to the proxy base URL, RSA-SHA256 as signature
algorithm and SHA-256 as digest algorithm. -/
theorem settings_defaults (env : Env) (s : SamlSettings) (logs : List String)
    (h : get_saml_settings env = (.ok s, logs))
    (hnif : getenv env "SAML_NAME_ID_FORMAT" = none)
    (hacs : getenv env "SAML_ACS_PATH" = none) :
    s.sp.nameIdFormat = "urn:oasis:names:tc:SAML:1.1:nameid-format:emailAddress" ∧
    (∃ base, getenv env "PROXY_BASE_URL" = some base ∧
      s.sp.acsUrl = base ++ "/sso/saml/acs") ∧
    s.security.signatureAlgorithm = "http://www.w3.org/2001/04/xmldsig-more#rsa-sha256" ∧
    s.security.digestAlgorithm = "http://www.w3.org/2001/04/xmlenc#sha256" := by
  simp only [get_saml_settings] at h
  split at h
  · simp at h
  · split at h
    · simp at h
    · split at h
      · simp at h
      · split at h
        · simp at h
        · rename_i h1 h2 h3 h4
          simp only [Prod.mk.injEq, Except.ok.injEq] at h
          obtain ⟨hs, hl⟩ := h
          subst hs
          refine ⟨?_, ?_, rfl, rfl⟩
          · simp [getenvD, hnif]
          · cases hbase : getenv env "PROXY_BASE_URL" with
            | none =>
              rw [hbase] at h4
              simp [truthyStr] at h4
            | some b =>
              exact ⟨b, rfl, by simp [getenvD, hacs, pyStr, hbase]⟩

/-- C8 witness: the defaults hold in the accepted settings of `env_ok`,
which sets none of the optional variables. -/
theorem settings_defaults_witness :
    ∃ s logs, get_saml_settings env_ok = (.ok s, logs) ∧
      s.sp.nameIdFormat = "urn:oasis:names:tc:SAML:1.1:nameid-format:emailAddress" ∧
      s.sp.acsUrl = "https://proxy.example.com/sso/saml/acs" ∧
      s.security.signatureAlgorithm = "http://www.w3.org/2001/04/xmldsig-more#rsa-sha256" ∧
      s.security.digestAlgorithm = "http://www.w3.org/2001/04/xmlenc#sha256" := by
  refine ⟨_, _, rfl, ?_⟩
  obtain ⟨h1, ⟨base, hb, hu⟩, h3, h4⟩ := settings_defaults env_ok _ _ rfl rfl rfl
  refine ⟨h1, ?_, h3, h4⟩
  have hbase : base = "https://proxy.example.com" := by
    have hsome := hb.symm.trans
      (show getenv env_ok "PROXY_BASE_URL" = some "https://proxy.example.com" by decide)
    exact (Option.some.injEq _ _).mp hsome
  rw [hu, hbase]
  decide

/-- C9 counterexample: two configurations differing only in the
`SAML_IDP_X509_CERT` value (non-empty versus empty) produce different log
output from settings construction — the run with the empty certificate
emits nothing while the other emits the settings-built line — so the
claimed equality of log output fails. -/
theorem log_differs_on_cert_presence_counterexample :
    (∀ k, k ≠ "SAML_IDP_X509_CERT" → getenv env_ok k = getenv env_emptycert k) ∧
    getenv env_ok "SAML_IDP_X509_CERT" ≠ getenv env_emptycert "SAML_IDP_X509_CERT" ∧
    (get_saml_settings env_ok).2 ≠ (get_saml_settings env_emptycert).2 := by
  refine ⟨?_, by decide, by decide⟩
  intro k hk
  simp only [env_ok, env_emptycert, getenv]
  split_ifs with hh1 hh2 hh3 <;> simp_all

/-- C9 amended: the log output of settings construction and of response
processing never depends on the secret values — two runs agreeing on every
non-secret configuration key the handler reads, and whose IdP certificate
is truthy in both or falsy in both, emit identical log output whatever
the private key and certificate values are. -/
theorem log_noninterference (env1 env2 : Env) (r : SamlResponseModel)
    (hns : ∀ k ∈ non_secret_keys, getenv env1 k = getenv env2 k)
    (hcert : truthyStr (getenv env1 "SAML_IDP_X509_CERT")
              = truthyStr (getenv env2 "SAML_IDP_X509_CERT")) :
    (get_saml_settings env1).2 = (get_saml_settings env2).2 ∧
    (process_saml_response env1 r).2 = (process_saml_response env2 r).2 := by
  have e_ent := hns "SAML_IDP_ENTITY_ID" (by simp [non_secret_keys])
  have e_sso := hns "SAML_IDP_SSO_URL" (by simp [non_secret_keys])
  have e_base := hns "PROXY_BASE_URL" (by simp [non_secret_keys])
  have e_eid := hns "SAML_ENTITY_ID" (by simp [non_secret_keys])
  have e_uid := hns "SAML_USER_ID_ATTRIBUTE" (by simp [non_secret_keys])
  have e_uem := hns "SAML_USER_EMAIL_ATTRIBUTE" (by simp [non_secret_keys])
  have e_ufn := hns "SAML_USER_FIRST_NAME_ATTRIBUTE" (by simp [non_secret_keys])
  have e_uln := hns "SAML_USER_LAST_NAME_ATTRIBUTE" (by simp [non_secret_keys])
  have e_udn := hns "SAML_USER_DISPLAY_NAME_ATTRIBUTE" (by simp [non_secret_keys])
  have hattr : attr_config_from_env env1 = attr_config_from_env env2 := by
    simp [attr_config_from_env, getenvD, e_uid, e_uem, e_ufn, e_uln, e_udn]
  constructor
  · by_cases h1 : truthyStr (getenv env2 "SAML_IDP_ENTITY_ID") = true
    · by_cases h2 : truthyStr (getenv env2 "SAML_IDP_SSO_URL") = true
      · by_cases h3 : truthyStr (getenv env2 "SAML_IDP_X509_CERT") = true
        · by_cases h4 : truthyStr (getenv env2 "PROXY_BASE_URL") = true
          · simp [get_saml_settings, getenvD, e_ent, e_sso, e_base, e_eid,
                  hcert, h1, h2, h3, h4]
          · simp [get_saml_settings, e_ent, e_sso, e_base, hcert, h1, h2, h3, h4]
        · simp [get_saml_settings, e_ent, e_sso, hcert, h1, h2, h3]
      · simp [get_saml_settings, e_ent, e_sso, h1, h2]
    · simp [get_saml_settings, e_ent, h1]
  · by_cases h1 : truthyStr (getenv env2 "SAML_IDP_ENTITY_ID") = true
    · by_cases h2 : truthyStr (getenv env2 "SAML_IDP_SSO_URL") = true
      · by_cases h3 : truthyStr (getenv env2 "SAML_IDP_X509_CERT") = true
        · by_cases h4 : truthyStr (getenv env2 "PROXY_BASE_URL") = true
          · simp [process_saml_response, get_saml_settings, getenvD, e_ent, e_sso,
                  e_base, e_eid, hcert, h1, h2, h3, h4, hattr]
          · simp [process_saml_response, get_saml_settings, e_ent, e_sso, e_base,
                  hcert, h1, h2, h3, h4]
        · simp [process_saml_response, get_saml_settings, e_ent, e_sso, hcert, h1, h2, h3]
      · simp [process_saml_response, get_saml_settings, e_ent, e_sso, h1, h2]
    · simp [process_saml_response, get_saml_settings, e_ent, h1]

/-- C9 witness: two concrete configurations agreeing on every non-secret
key but holding different IdP certificates and SP private keys produce
identical log output for settings construction and for processing a
valid response. -/
theorem log_noninterference_witness :
    (get_saml_settings env_keyonly).2 = (get_saml_settings env_othersecrets).2 ∧
    (process_saml_response env_keyonly response_good).2
      = (process_saml_response env_othersecrets response_good).2 :=
  log_noninterference env_keyonly env_othersecrets response_good
    (by decide) (by decide)

/-- C10: `should_use_saml_handler` is true exactly when the three IdP
variables are set to non-empty values; it does not consult
`PROXY_BASE_URL`, so on `env_nobase` it returns true while settings
construction fails with a 500 configuration error naming
`PROXY_BASE_URL`. -/
theorem should_use_saml_handler_spec :
    (∀ env, should_use_saml_handler env = true ↔
      (truthyStr (getenv env "SAML_IDP_ENTITY_ID") = true ∧
       truthyStr (getenv env "SAML_IDP_SSO_URL") = true ∧
       truthyStr (getenv env "SAML_IDP_X509_CERT") = true)) ∧
    should_use_saml_handler env_nobase = true ∧
    (∃ e logs, get_saml_settings env_nobase = (.error e, logs)
      ∧ e.code = 500 ∧ e.param = "PROXY_BASE_URL") := by
  refine ⟨?_, by decide, ⟨_, _, rfl, rfl, rfl⟩⟩
  intro env
  simp [should_use_saml_handler, Bool.and_eq_true, and_assoc]
